import Mathlib

/-!
Verification of the EMateRL decision-and-learning core.

This file is a shallow embedding of the Python sources of the repository:
`emate/core/contracts.py`, `emate/micro/state_discretizer.py`,
`emate/micro/qlearning.py`, `emate/micro/action_map.py`,
`emate/core/persona_guard.py` and `emate/core/graph.py`.

Modelling conventions:
- Python `float` is modelled by `ℚ` (exact arithmetic; the learning code only
  adds, multiplies and compares).
- Python `str` is modelled by `String`; `needle in haystack` by `strIn`,
  `str.replace` by `pyReplace`, `str.endswith` by `pyEndsWith`, `str.lower`
  by `pyLower` (ASCII case mapping; every case-sensitive literal used by the
  code is ASCII or Chinese, where `lower` is the identity).
- Python `dict` (insertion-ordered) is modelled by an association list:
  `dictGet` is `d.get(k)`, `dictInsert` is `d[k] = v` (an existing key keeps
  its position, a new key is appended at the end).
- Python `max(xs)` and `max(d, key=d.get)` raise on empty input, so their
  models return `Option`; on nonempty input they return the first element
  attaining the maximum, exactly like CPython.
- `random.random()` and `random.choice` in `select_action` are modelled by
  explicit parameters `u : ℚ` (the uniform draw, `0 ≤ u < 1` in Python) and
  `randIdx : ℕ` (the choice index).
- File I/O: the JSON document behind the Q-table is modelled as the
  `storage` field of the learner state; `_save` copies the table into it.
-/

namespace EMate

/-- Models the `SpeechEmotion` Literal of `contracts.py` (closed set, enforced
by pydantic validation at the input boundary). -/
inductive SpeechEmotion
| stress
| calm
| happy
| sad
| angry
| fatigue
deriving DecidableEq

/-- Models the `TextSentiment` Literal of `contracts.py`. -/
inductive TextSentiment
| positive
| neutral
| negative
deriving DecidableEq

/-- Models the `TimeOfDay` Literal of `contracts.py`. -/
inductive TimeOfDay
| morning
| afternoon
| evening
| night
deriving DecidableEq

/-- The string value carried by each `TimeOfDay` literal. -/
def TimeOfDay.toStr : TimeOfDay → String
| .morning => "morning"
| .afternoon => "afternoon"
| .evening => "evening"
| .night => "night"

/-- Models the `Personality` Literal of `contracts.py` (six fixed values). -/
inductive Personality
| StandardAssistant
| CuteCat
| ColdBoss
| WarmSister
| AnimeWizard
| SarcasticFighter
deriving DecidableEq

/-- Models `PerceptionInput` of `contracts.py`: `user_text` defaults to `""`,
the remaining fields default to `None` / `[]`. -/
structure PerceptionInput where
  user_text : String
  speech_emotion : Option SpeechEmotion
  text_sentiment : Option TextSentiment
  context_flags : List String
  time_of_day : Option TimeOfDay
deriving DecidableEq

/-- Models `MemoryEpisode` of `contracts.py`. -/
structure MemoryEpisode where
  event : String
  emotion : Option String
  ts : Option String
deriving DecidableEq

/-- Models `MemoryInput` of `contracts.py`. -/
structure MemoryInput where
  facts : List String
  episodes : List MemoryEpisode
deriving DecidableEq

/-- Models `SystemContext` of `contracts.py` (`agent_mode` is never read by
the decision pipeline and is omitted). -/
structure SystemContext where
  personality : Personality
  long_term_goals : List String
deriving DecidableEq

/-- Models `InputState` of `contracts.py`. -/
structure InputState where
  perception_input : PerceptionInput
  memory_input : MemoryInput
  system_context : SystemContext
deriving DecidableEq

/-- Association-list model of a Python `dict` lookup `d.get(k)`. -/
def dictGet {β : Type} (d : List (String × β)) (k : String) : Option β :=
  match d with
  | [] => none
  | (k', v) :: rest => if k' = k then some v else dictGet rest k

/-- Association-list model of a Python `dict` assignment `d[k] = v`: an
existing key keeps its position, a new key is appended at the end (CPython
dicts preserve insertion order). -/
def dictInsert {β : Type} (d : List (String × β)) (k : String) (v : β) :
    List (String × β) :=
  match d with
  | [] => [(k, v)]
  | (k', v') :: rest =>
      if k' = k then (k, v) :: rest else (k', v') :: dictInsert rest k v

/-- Models the Python membership test `k in d` for a dict. -/
def dictContains {β : Type} (d : List (String × β)) (k : String) : Bool :=
  (dictGet d k).isSome

/-- Substring search on character lists: `subOf pat l` holds iff `pat` occurs
contiguously in `l` (the semantics of Python `pat in l` for nonempty `pat`;
all patterns used by the modelled code are nonempty). -/
def subOf (pat : List Char) : List Char → Bool
  | [] => pat.isEmpty
  | c :: rest => pat.isPrefixOf (c :: rest) || subOf pat rest

/-- Models the Python string containment test `needle in haystack`. -/
def strIn (needle haystack : String) : Bool :=
  subOf needle.data haystack.data

/-- Models Python `str.lower()` (ASCII case mapping; the modelled code only
lowercases ASCII keywords and Chinese text, on which this agrees). -/
def pyLower (s : String) : String :=
  ⟨s.data.map Char.toLower⟩

/-- Replace every non-overlapping occurrence of `pat` in the subject, left to
right, as Python `str.replace` does for a nonempty `pat` (every pattern used
by the modelled code is nonempty). -/
def replaceChars (pat rep : List Char) : List Char → List Char
  | [] => []
  | c :: rest =>
      if _hp : pat.isPrefixOf (c :: rest) ∧ pat ≠ [] then
        rep ++ replaceChars pat rep ((c :: rest).drop pat.length)
      else
        c :: replaceChars pat rep rest
termination_by l => l.length
decreasing_by
  · have hlen : 1 ≤ pat.length := List.length_pos.mpr _hp.2
    simp only [List.length_drop, List.length_cons]
    omega
  · simp

/-- Models Python `s.replace(pat, rep)` (for nonempty `pat`). -/
def pyReplace (s pat rep : String) : String :=
  ⟨replaceChars pat.data rep.data s.data⟩

/-- Models Python `s.endswith(suffix)`. -/
def pyEndsWith (s suffix : String) : Bool :=
  List.isSuffixOf suffix.data s.data

/-- Models `_safe(val, fallback)` of `state_discretizer.py` for the
time-of-day field: `val if val else fallback` (the enum value is never the
empty string, so falsiness coincides with absence). -/
def safeTod (t : Option TimeOfDay) : String :=
  match t with
  | none => "unknown"
  | some x => x.toStr

/-- Models `_assess_work_rhythm(p, flags)` of `state_discretizer.py`. -/
def assess_work_rhythm (p : PerceptionInput) (flags : List String) : String :=
  if "deep_work_mode" ∈ flags then "deep_focus"
  else if p.speech_emotion = some SpeechEmotion.stress ∧ "deadline_near" ∈ flags then
    "intense_work"
  else if p.speech_emotion = some SpeechEmotion.fatigue then "energy_low"
  else if p.speech_emotion = some SpeechEmotion.calm ∧ "task_switching" ∉ flags then
    "steady_flow"
  else if "task_switching" ∈ flags ∨ "interruption_high" ∈ flags then "fragmented"
  else "normal"

/-- Models `_assess_health_status(p, flags)` of `state_discretizer.py` (the
source's two separate `if` chains all return, so they flatten to one chain). -/
def assess_health_status (p : PerceptionInput) (flags : List String) : String :=
  if "sitting_over_2h" ∈ flags then "sitting_long"
  else if "sitting_over_1h" ∈ flags then "sitting_moderate"
  else if (p.speech_emotion = some SpeechEmotion.stress ∨
           p.speech_emotion = some SpeechEmotion.angry) ∧ "high_workload" ∈ flags then
    "stress_high"
  else if p.speech_emotion = some SpeechEmotion.fatigue then "energy_depleted"
  else if "environment_uncomfortable" ∈ flags then "env_poor"
  else "healthy"

/-- Models `_assess_emotional_state(p, m)` of `state_discretizer.py`. -/
def assess_emotional_state (p : PerceptionInput) (m : MemoryInput) : String :=
  if p.speech_emotion = some SpeechEmotion.stress ∧
     p.text_sentiment = some TextSentiment.negative then "overwhelmed"
  else if p.speech_emotion = some SpeechEmotion.sad then "need_comfort"
  else if p.speech_emotion = some SpeechEmotion.happy then "positive_mood"
  else if p.speech_emotion = some SpeechEmotion.fatigue then "emotionally_drained"
  else
    let recent_interactions :=
      (m.episodes.filter (fun ep => strIn "interaction" (pyLower ep.event))).length
    if recent_interactions > 5 then "connected"
    else if recent_interactions = 0 then "distant"
    else "neutral"

/-- The flagship-project keywords of `_assess_personal_context`. -/
def importantProjects : List String := ["凤凰", "phoenix", "重要项目"]

/-- The goal keywords of `_assess_personal_context`. -/
def goalWords : List String := ["目标", "计划", "项目"]

/-- Models `_assess_personal_context(p, m, flags)` of `state_discretizer.py`. -/
def assess_personal_context (p : PerceptionInput) (m : MemoryInput)
    (flags : List String) : String :=
  if importantProjects.any (fun proj => strIn proj (pyLower p.user_text)) then
    if "deadline_near" ∈ flags then "important_behind" else "important_progress"
  else
    let goal_related_episodes :=
      m.episodes.filter (fun ep => goalWords.any (fun w => strIn w (pyLower ep.event)))
    if goal_related_episodes.length > 3 then "goal_active"
    else if goal_related_episodes.length = 0 then "goal_unclear"
    else "routine"

/-- Models `_assess_environmental_context(p, flags)` of `state_discretizer.py`. -/
def assess_environmental_context (p : PerceptionInput) (flags : List String) :
    String :=
  let tod := safeTod p.time_of_day
  if tod = "morning" ∧ "energy_high" ∈ flags then "morning_fresh"
  else if tod = "afternoon" ∧ "post_lunch_dip" ∈ flags then "afternoon_low"
  else if tod = "evening" ∧ "overtime" ∈ flags then "evening_overtime"
  else if "interruption_high" ∈ flags then tod ++ "_chaotic"
  else if "quiet_space" ∈ flags then tod ++ "_peaceful"
  else tod ++ "_normal"

/-- Models `discretize_state(input_state)` of `state_discretizer.py`: the five
prefixed dimension segments joined with `"|"`. -/
def discretize_state (i : InputState) : String :=
  let p := i.perception_input
  let m := i.memory_input
  let flags := p.context_flags
  String.intercalate "|"
    [ "RHYTHM_" ++ assess_work_rhythm p flags,
      "HEALTH_" ++ assess_health_status p flags,
      "EMOTION_" ++ assess_emotional_state p m,
      "GOAL_" ++ assess_personal_context p m flags,
      "ENV_" ++ assess_environmental_context p flags ]

/-- Models `ActionParameters` of `contracts.py` (all fields default `None`). -/
structure ActionParameters where
  duration : Option Int
  related_task : Option String
  deadline : Option String
deriving DecidableEq

/-- The all-`None` default `ActionParameters()`. -/
def noParams : ActionParameters :=
  { duration := none, related_task := none, deadline := none }

/-- Models `Action` of `contracts.py`; the `type` carries one of the
`ActionType` Literal strings. -/
structure Action where
  type : String
  parameters : ActionParameters
deriving DecidableEq

/-- Models `ExecutionOutput` of `contracts.py`; the fields carry
`ScreenAnimation` / `LightEffect` Literal strings. -/
structure ExecutionOutput where
  screen_animation : Option String
  light_effect : Option String
deriving DecidableEq

/-- Models `TTSOutput` of `contracts.py`. -/
structure TTSOutput where
  text_to_speak : Option String
deriving DecidableEq

/-- Models `OutputCommand` of `contracts.py`. The `memory_output` field is
omitted: the modelled pipeline never writes or reads it (it stays at its
default empty value through templating and filtering). -/
structure OutputCommand where
  execution_output : ExecutionOutput
  tts_output : TTSOutput
  action : Action
deriving DecidableEq

/-- Action identifiers of `action_map.py`. -/
def A_DEEP_WORK_MODE : String := "A_DEEP_WORK_MODE"

def A_FOCUS_FLOW : String := "A_FOCUS_FLOW"

def A_ENERGY_BOOST : String := "A_ENERGY_BOOST"

def A_MOVEMENT_REMINDER : String := "A_MOVEMENT_REMINDER"

def A_BREATHING_GUIDE : String := "A_BREATHING_GUIDE"

def A_ENVIRONMENT_ADJUST : String := "A_ENVIRONMENT_ADJUST"

def A_EMOTIONAL_SUPPORT : String := "A_EMOTIONAL_SUPPORT"

def A_CELEBRATION : String := "A_CELEBRATION"

def A_GENTLE_PRESENCE : String := "A_GENTLE_PRESENCE"

def A_GOAL_PROGRESS : String := "A_GOAL_PROGRESS"

def A_HABIT_NUDGE : String := "A_HABIT_NUDGE"

def A_PERSONALIZED_INSIGHT : String := "A_PERSONALIZED_INSIGHT"

def A_SPACE_OPTIMIZATION : String := "A_SPACE_OPTIMIZATION"

def A_DISTRACTION_SHIELD : String := "A_DISTRACTION_SHIELD"

def A_AMBIENT_COMPANION : String := "A_AMBIENT_COMPANION"

def A_SET_REMINDER : String := "A_SET_REMINDER"

def A_NONE : String := "A_NONE"

/-- The full action catalog `ACTIONS` of `action_map.py`, in declaration
order. -/
def ACTIONS : List String :=
  [ A_DEEP_WORK_MODE, A_FOCUS_FLOW, A_ENERGY_BOOST,
    A_MOVEMENT_REMINDER, A_BREATHING_GUIDE, A_ENVIRONMENT_ADJUST,
    A_EMOTIONAL_SUPPORT, A_CELEBRATION, A_GENTLE_PRESENCE,
    A_GOAL_PROGRESS, A_HABIT_NUDGE, A_PERSONALIZED_INSIGHT,
    A_SPACE_OPTIMIZATION, A_DISTRACTION_SHIELD, A_AMBIENT_COMPANION,
    A_SET_REMINDER, A_NONE ]

/-- Models `_get_deep_work_message` of `action_map.py`. -/
def get_deep_work_message : Personality → String
| .StandardAssistant => "启动深度工作保护模式，为您屏蔽干扰。"
| .CuteCat => "深度专注时间到啦！我会保护你的专注环境~ 喵"
| .ColdBoss => "深度工作模式。所有干扰将被屏蔽。专注。"
| .WarmSister => "我为你营造了一个安静的专注空间，好好工作吧。"
| .AnimeWizard => "*施展专注结界* 凡人的思维需要绝对的宁静。"
| .SarcasticFighter => "终于要认真工作了？好吧，我帮你挡住那些无聊的干扰。"

/-- Models `_get_focus_flow_message` of `action_map.py`. -/
def get_focus_flow_message : Personality → String
| .StandardAssistant => "引导您进入专注流状态，享受高效工作。"
| .CuteCat => "让我们一起进入心流状态吧！就像小猫专注捕鱼一样~ 喵"
| .ColdBoss => "心流状态。这是高效的开始。保持。"
| .WarmSister => "放松心情，让思维自然流淌，我陪着你。"
| .AnimeWizard => "*引导气息* 感受思维的流动...这就是专注的奥义。"
| .SarcasticFighter => "心流？听起来很玄乎，但确实有效。试试看吧。"

/-- Models `_get_energy_boost_message` of `action_map.py`. -/
def get_energy_boost_message : Personality → String
| .StandardAssistant => "检测到您需要能量补充，建议短暂活动或补充水分。"
| .CuteCat => "小主人看起来有点累呢~ 喝点水，动动身体吧！喵"
| .ColdBoss => "能量不足会影响效率。补充。然后继续。"
| .WarmSister => "感觉到你的疲惫了，要不要站起来伸个懒腰？"
| .AnimeWizard => "*观察* 凡人的能量在衰减...需要恢复生命力。"
| .SarcasticFighter => "累了？这才多久？算了，去充个电再回来。"

/-- Models `_get_movement_message` of `action_map.py`. -/
def get_movement_message : Personality → String
| .StandardAssistant => "您已久坐较长时间，建议适当活动身体。"
| .CuteCat => "该起来走走啦！像小猫一样伸伸懒腰~ 身体健康最重要！喵"
| .ColdBoss => "久坐影响效率。活动5分钟。立即执行。"
| .WarmSister => "坐了这么久，起来走走吧，我担心你的身体。"
| .AnimeWizard => "*提醒* 即使是修行者也需要活动筋骨...凡人更是如此。"
| .SarcasticFighter => "坐成化石了？起来动动，别真的僵硬了。"

/-- Models `_get_breathing_message` of `action_map.py`. -/
def get_breathing_message : Personality → String
| .StandardAssistant => "让我们一起做几次深呼吸，缓解压力。"
| .CuteCat => "深呼吸时间！跟着我一起：吸气~ 呼气~ 感觉好多了吧？喵"
| .ColdBoss => "压力过高影响判断。深呼吸。重新聚焦。"
| .WarmSister => "来，跟我一起慢慢呼吸，让紧张的情绪慢慢放松。"
| .AnimeWizard => "*引导冥想* 呼吸是生命的节律...感受内心的平静。"
| .SarcasticFighter => "紧张了？深呼吸确实有用，别小看这个简单动作。"

/-- Models `_get_environment_message` of `action_map.py`. -/
def get_environment_message : Personality → String
| .StandardAssistant => "为您优化工作环境，提升舒适度。"
| .CuteCat => "让我帮你调整环境吧！舒适的空间才能高效工作~ 喵"
| .ColdBoss => "环境优化。舒适度直接影响产出。调整完毕。"
| .WarmSister => "我注意到环境有些不舒适，让我为你调节一下。"
| .AnimeWizard => "*调和元素* 环境的和谐是内心平静的基础。"
| .SarcasticFighter => "环境这么糟糕还想高效？让我来搞定。"

/-- Models `_get_emotional_support_message` of `action_map.py`. -/
def get_emotional_support_message : Personality → String
| .StandardAssistant => "我理解您现在的感受，我会陪伴在您身边。"
| .CuteCat => "别难过啦~ 小猫咪永远支持你！有什么困难我们一起面对！喵"
| .ColdBoss => "情绪波动很正常。重新整理思路。我在这里。"
| .WarmSister => "我感受到了你的情绪，别担心，有我陪着你呢。"
| .AnimeWizard => "*温和注视* 即使是最强的战士也有脆弱的时候...我理解。"
| .SarcasticFighter => "哎，看你这样子...算了，我陪着你，别想太多。"

/-- Models `_get_celebration_message` of `action_map.py`. -/
def get_celebration_message : Personality → String
| .StandardAssistant => "恭喜您取得了进展！值得庆祝。"
| .CuteCat => "哇！太棒了！让我们一起庆祝吧！你真的很厉害~ 喵喵喵！"
| .ColdBoss => "不错。继续保持这个水准。"
| .WarmSister => "我为你感到骄傲！这个成就来之不易。"
| .AnimeWizard => "*点头赞许* 凡人也能达到如此高度...令人刮目相看。"
| .SarcasticFighter => "哟，终于有点样子了！继续加油，别骄傲。"

/-- Models `_get_gentle_presence_message` of `action_map.py` (all empty). -/
def get_gentle_presence_message : Personality → String :=
  fun _ => ""

/-- Models `_get_goal_progress_message` of `action_map.py` (the task context
is prepended when a related task is known). -/
def get_goal_progress_message (p : Personality) (related_task : Option String) :
    String :=
  let task_context :=
    match related_task with
    | some t => "关于" ++ t ++ "，"
    | none => ""
  match p with
  | .StandardAssistant => task_context ++ "让我为您分析一下进展情况。"
  | .CuteCat => task_context ++ "让我看看你的进展如何~ 我来帮你总结！喵"
  | .ColdBoss => task_context ++ "进展报告。数据说明一切。"
  | .WarmSister => task_context ++ "我来帮你梳理一下目标进展，别着急。"
  | .AnimeWizard => task_context ++ "*查看进展卷轴* 让我解读你的成长轨迹。"
  | .SarcasticFighter => task_context ++ "看看你到底做了多少...希望有点进展。"

/-- Models `_get_habit_nudge_message` of `action_map.py`. -/
def get_habit_nudge_message : Personality → String
| .StandardAssistant => "温和提醒您保持良好的工作习惯。"
| .CuteCat => "好习惯要坚持哦~ 小猫咪相信你能做到！喵"
| .ColdBoss => "习惯决定效率。坚持。不要找借口。"
| .WarmSister => "养成好习惯需要时间，我会耐心提醒你的。"
| .AnimeWizard => "*传授智慧* 习惯是通往强大的基石...持续修行。"
| .SarcasticFighter => "又该提醒你了...什么时候能自觉点？"

/-- Models `_get_personalized_insight_message` of `action_map.py`. -/
def get_personalized_insight_message : Personality → String
| .StandardAssistant => "基于您的工作模式，我有一些个性化建议。"
| .CuteCat => "我观察到一些有趣的模式！让我分享一些小洞察~ 喵"
| .ColdBoss => "数据分析完成。个性化建议如下。"
| .WarmSister => "通过长期观察，我发现了一些能帮到你的规律。"
| .AnimeWizard => "*分享古老智慧* 从你的行为中，我看到了深层的模式。"
| .SarcasticFighter => "我发现了你的一些...有趣的工作习惯，听听建议吧。"

/-- Models `_get_space_optimization_message` of `action_map.py`. -/
def get_space_optimization_message : Personality → String
| .StandardAssistant => "正在为您优化整个工作空间的协调性。"
| .CuteCat => "让我把工作空间变得更舒适！就像整理小窝一样~ 喵"
| .ColdBoss => "空间优化。效率最大化。环境就绪。"
| .WarmSister => "我来帮你打造一个更舒适的工作环境。"
| .AnimeWizard => "*调和空间能量* 和谐的空间带来内心的平静。"
| .SarcasticFighter => "这工作环境...算了，让我来优化一下。"

/-- Models `_get_distraction_shield_message` of `action_map.py`. -/
def get_distraction_shield_message : Personality → String
| .StandardAssistant => "为您启动干扰屏蔽，保护专注环境。"
| .CuteCat => "小猫守护模式开启！不会让任何干扰打扰到你~ 喵"
| .ColdBoss => "干扰屏蔽激活。专注环境受保护。"
| .WarmSister => "我会帮你挡住那些烦人的干扰，安心工作吧。"
| .AnimeWizard => "*施展护盾结界* 专注的心灵需要绝对的保护。"
| .SarcasticFighter => "这些干扰真烦人！我来搞定它们。"

/-- Models `_get_ambient_companion_message` of `action_map.py`. -/
def get_ambient_companion_message : Personality → String
| .StandardAssistant => "调节环境氛围，营造适合的工作状态。"
| .CuteCat => "让我调节一下氛围~ 舒适的环境让工作更愉快！喵"
| .ColdBoss => "氛围调节。适合当前工作状态。"
| .WarmSister => "我来为你营造一个温馨的工作氛围。"
| .AnimeWizard => "*调和环境气息* 合适的氛围能激发内在潜力。"
| .SarcasticFighter => "氛围这种东西...算了，确实有点用。"

/-- Models `_get_reminder_message` of `action_map.py`. -/
def get_reminder_message : Personality → String
| .StandardAssistant => "已为您设置任务提醒。"
| .CuteCat => "收到啦！我会提醒你的~ 别担心，我在这里！"
| .ColdBoss => "提醒已设置。别指望我手把手教你。"
| .WarmSister => "我理解你有很多事情要记住。我会温柔地提醒你的。"
| .AnimeWizard => "*叹息* 又一个凡人的任务要记住...好吧。"
| .SarcasticFighter => "真的？这种基础任务也要提醒？行吧。"

/-- Models `map_action_to_output(action_id, related_task, personality)` of
`action_map.py`: the static dispatch from an action identifier to a concrete
output command. -/
def map_action_to_output (action_id : String) (related_task : Option String)
    (personality : Personality) : OutputCommand :=
  if action_id = A_DEEP_WORK_MODE then
    { execution_output :=
        { screen_animation := some "deep_focus_shield", light_effect := some "focus_deep_blue" },
      tts_output := { text_to_speak := some (get_deep_work_message personality) },
      action := { type := "deep_work_protection",
                  parameters := { noParams with related_task := related_task } } }
  else if action_id = A_FOCUS_FLOW then
    { execution_output :=
        { screen_animation := some "flow_waves", light_effect := some "flow_gradient" },
      tts_output := { text_to_speak := some (get_focus_flow_message personality) },
      action := { type := "focus_flow_guidance", parameters := noParams } }
  else if action_id = A_ENERGY_BOOST then
    { execution_output :=
        { screen_animation := some "energy_spark", light_effect := some "energizing_orange" },
      tts_output := { text_to_speak := some (get_energy_boost_message personality) },
      action := { type := "energy_boost_suggestion", parameters := noParams } }
  else if action_id = A_MOVEMENT_REMINDER then
    { execution_output :=
        { screen_animation := some "gentle_stretch", light_effect := some "health_green_pulse" },
      tts_output := { text_to_speak := some (get_movement_message personality) },
      action := { type := "movement_reminder", parameters := noParams } }
  else if action_id = A_BREATHING_GUIDE then
    { execution_output :=
        { screen_animation := some "breathing_guide", light_effect := some "calm_breathing" },
      tts_output := { text_to_speak := some (get_breathing_message personality) },
      action := { type := "breathing_relaxation", parameters := noParams } }
  else if action_id = A_ENVIRONMENT_ADJUST then
    { execution_output :=
        { screen_animation := some "environment_adjust", light_effect := some "comfort_warm" },
      tts_output := { text_to_speak := some (get_environment_message personality) },
      action := { type := "environment_optimization", parameters := noParams } }
  else if action_id = A_EMOTIONAL_SUPPORT then
    { execution_output :=
        { screen_animation := some "empathetic_presence", light_effect := some "warm_embrace" },
      tts_output := { text_to_speak := some (get_emotional_support_message personality) },
      action := { type := "emotional_support", parameters := noParams } }
  else if action_id = A_CELEBRATION then
    { execution_output :=
        { screen_animation := some "celebration_sparkle", light_effect := some "joy_rainbow" },
      tts_output := { text_to_speak := some (get_celebration_message personality) },
      action := { type := "achievement_celebration", parameters := noParams } }
  else if action_id = A_GENTLE_PRESENCE then
    { execution_output :=
        { screen_animation := some "gentle_pulse", light_effect := some "soft_presence" },
      tts_output := { text_to_speak := some (get_gentle_presence_message personality) },
      action := { type := "quiet_companionship", parameters := noParams } }
  else if action_id = A_GOAL_PROGRESS then
    { execution_output :=
        { screen_animation := some "progress_chart", light_effect := some "progress_blue" },
      tts_output :=
        { text_to_speak := some (get_goal_progress_message personality related_task) },
      action := { type := "goal_progress_review",
                  parameters := { noParams with related_task := related_task } } }
  else if action_id = A_HABIT_NUDGE then
    { execution_output :=
        { screen_animation := some "habit_formation", light_effect := some "habit_purple" },
      tts_output := { text_to_speak := some (get_habit_nudge_message personality) },
      action := { type := "habit_formation_nudge", parameters := noParams } }
  else if action_id = A_PERSONALIZED_INSIGHT then
    { execution_output :=
        { screen_animation := some "wisdom_sharing", light_effect := some "insight_gold" },
      tts_output := { text_to_speak := some (get_personalized_insight_message personality) },
      action := { type := "personalized_insight", parameters := noParams } }
  else if action_id = A_SPACE_OPTIMIZATION then
    { execution_output :=
        { screen_animation := some "space_harmony", light_effect := some "optimization_white" },
      tts_output := { text_to_speak := some (get_space_optimization_message personality) },
      action := { type := "workspace_optimization", parameters := noParams } }
  else if action_id = A_DISTRACTION_SHIELD then
    { execution_output :=
        { screen_animation := some "shield_protection", light_effect := some "protection_cyan" },
      tts_output := { text_to_speak := some (get_distraction_shield_message personality) },
      action := { type := "distraction_protection", parameters := noParams } }
  else if action_id = A_AMBIENT_COMPANION then
    { execution_output :=
        { screen_animation := some "ambient_waves", light_effect := some "ambient_mood" },
      tts_output := { text_to_speak := some (get_ambient_companion_message personality) },
      action := { type := "ambient_atmosphere", parameters := noParams } }
  else if action_id = A_SET_REMINDER then
    { execution_output :=
        { screen_animation := some "empathetic_nod", light_effect := some "warm_yellow_glow" },
      tts_output := { text_to_speak := some (get_reminder_message personality) },
      action := { type := "set_reminder",
                  parameters := { noParams with related_task := related_task } } }
  else
    { execution_output :=
        { screen_animation := some "gentle_breathing", light_effect := some "soft_ambient" },
      tts_output := { text_to_speak := some "" },
      action := { type := "silent_companionship", parameters := noParams } }

/-- Models `_filter_standard_assistant` of `persona_guard.py`: silence the
no-op action, then neutralise emotionally charged words in nonempty speech. -/
def filter_standard_assistant (o : OutputCommand) : OutputCommand :=
  let o1 :=
    if o.action.type = "none" then
      { o with tts_output := { text_to_speak := some "" } }
    else o
  if o1.tts_output.text_to_speak.getD "" ≠ "" then
    let text := o1.tts_output.text_to_speak.getD ""
    let text := pyReplace text "太棒了" "很好"
    let text := pyReplace text "超级" "非常"
    let text := pyReplace text "完美" "良好"
    { o1 with tts_output := { text_to_speak := some text } }
  else o1

/-- The cute markers checked by `_filter_cute_cat`. -/
def cuteElements : List String := ["~", "喵", "nya"]

/-- Models `_filter_cute_cat` of `persona_guard.py`: append `" ~"` to speech
that carries no cute marker yet, and soften the `"focused"` animation. -/
def filter_cute_cat (o : OutputCommand) : OutputCommand :=
  let o1 :=
    if o.tts_output.text_to_speak.getD "" ≠ "" then
      let text := o.tts_output.text_to_speak.getD ""
      if (cuteElements.any fun e => strIn e text) = false then
        { o with tts_output := { text_to_speak := some (text ++ " ~") } }
      else o
    else o
  if o1.execution_output.screen_animation = some "focused" then
    { o1 with execution_output :=
        { o1.execution_output with screen_animation := some "breathing_calm" } }
  else o1

/-- Models `_filter_cold_boss` of `persona_guard.py`: strip polite particles,
force terminal punctuation, and coerce `suggest_break` into a 45-minute
`enter_focus_mode`. -/
def filter_cold_boss (o : OutputCommand) : OutputCommand :=
  let o1 :=
    if o.tts_output.text_to_speak.getD "" ≠ "" then
      let text := o.tts_output.text_to_speak.getD ""
      let text := pyReplace text "请" ""
      let text := pyReplace text "麻烦" ""
      let text := pyReplace text "可以的话" ""
      let text := pyReplace text "如果可以" ""
      let text :=
        if pyEndsWith text "。" = false ∧ pyEndsWith text "." = false then text ++ "。"
        else text
      { o with tts_output := { text_to_speak := some text } }
    else o
  if o1.action.type = "suggest_break" then
    { o1 with action :=
        { type := "enter_focus_mode",
          parameters := { o1.action.parameters with duration := some 45 } } }
  else o1

/-- The understanding keywords checked by `_filter_warm_sister`. -/
def understandingWords : List String := ["理解", "明白", "感受", "温柔", "陪伴"]

/-- Models `_filter_warm_sister` of `persona_guard.py`: prepend an
understanding phrase when no understanding keyword is present, and soften the
`"focused"` animation. -/
def filter_warm_sister (o : OutputCommand) : OutputCommand :=
  let o1 :=
    if o.tts_output.text_to_speak.getD "" ≠ "" then
      let text := o.tts_output.text_to_speak.getD ""
      let text :=
        if text ≠ "" ∧ (understandingWords.any fun w => strIn w text) = false then
          "我理解。" ++ text
        else text
      { o with tts_output := { text_to_speak := some text } }
    else o
  if o1.execution_output.screen_animation = some "focused" then
    { o1 with execution_output :=
        { o1.execution_output with screen_animation := some "empathetic_nod" } }
  else o1

/-- Models `_filter_anime_wizard` of `persona_guard.py`: wrap nonempty speech
in the detached framing phrases. -/
def filter_anime_wizard (o : OutputCommand) : OutputCommand :=
  if o.tts_output.text_to_speak.getD "" ≠ "" then
    let text := o.tts_output.text_to_speak.getD ""
    let text :=
      if text ≠ "" then "*叹息* " ++ text ++ " ...时间对凡人来说流逝得太快了。"
      else text
    { o with tts_output := { text_to_speak := some text } }
  else o

/-- Models `_filter_sarcastic_fighter` of `persona_guard.py`: wrap focus/work
speech in challenge phrases, and coerce `suggest_break` into a 90-minute
`enter_focus_mode`. -/
def filter_sarcastic_fighter (o : OutputCommand) : OutputCommand :=
  let o1 :=
    if o.tts_output.text_to_speak.getD "" ≠ "" then
      let text := o.tts_output.text_to_speak.getD ""
      let text :=
        if strIn "专注" text || strIn "工作" text then
          "终于准备好工作了？" ++ text ++ " 别让我失望。"
        else text
      { o with tts_output := { text_to_speak := some text } }
    else o
  if o1.action.type = "suggest_break" then
    { o1 with action :=
        { type := "enter_focus_mode",
          parameters := { o1.action.parameters with duration := some 90 } } }
  else o1

/-- Models `apply_persona_filter(output, personality)` of `persona_guard.py`.
The persona loader holds a config for each of the six closed personalities on
both of its load paths, so `get_persona` never returns `None` here and the
function is the straight dispatch on the personality. -/
def apply_persona_filter (o : OutputCommand) (personality : Personality) :
    OutputCommand :=
  match personality with
  | .StandardAssistant => filter_standard_assistant o
  | .CuteCat => filter_cute_cat o
  | .ColdBoss => filter_cold_boss o
  | .WarmSister => filter_warm_sister o
  | .AnimeWizard => filter_anime_wizard o
  | .SarcasticFighter => filter_sarcastic_fighter o

/-- Python `max(xs)` on a list of rationals: `none` models the `ValueError`
raised on an empty sequence. -/
def pyListMax (l : List ℚ) : Option ℚ :=
  match l with
  | [] => none
  | x :: xs => some (xs.foldl max x)

/-- Python `max(d, key=d.get)` over an insertion-ordered dict, modelled on the
association list: the first key attaining the maximal value wins (CPython's
`max` keeps the earliest of equal maxima); `none` models the `ValueError` on
an empty dict. -/
def pyMaxBy (l : List (String × ℚ)) : Option (String × ℚ) :=
  match l with
  | [] => none
  | p :: rest =>
      match pyMaxBy rest with
      | none => some p
      | some q => some (if p.2 < q.2 then q else p)

/-- Models the in-memory state of `QLearningNode` of `qlearning.py`.
`storage` models the contents of the durable JSON document behind
`storage_path`; `_save` copies the table into it. -/
structure QLearningNode where
  actions : List String
  alpha : ℚ
  gamma : ℚ
  epsilon : ℚ
  min_epsilon : ℚ
  epsilon_decay : ℚ
  q_table : List (String × List (String × ℚ))
  storage : List (String × List (String × ℚ))
deriving DecidableEq

/-- Models `QLearningNode._ensure_state`: a missing state key is initialized
with every catalog action at estimate `0.0` (full lazy initialization). -/
def QLearningNode.ensure_state (st : QLearningNode) (state_id : String) :
    QLearningNode :=
  if dictContains st.q_table state_id then st
  else
    { st with q_table :=
        st.q_table ++ [(state_id, st.actions.map (fun a => (a, (0 : ℚ))))] }

/-- Models `QLearningNode.select_action` with the two random draws made
explicit: `u` is the `random.random()` draw and `randIdx` indexes the
`random.choice` pick. `none` models the `ValueError` Python raises when the
greedy `max` (or `random.choice`) is handed an empty collection. -/
def QLearningNode.select_action (st : QLearningNode) (state_id : String)
    (u : ℚ) (randIdx : ℕ) : Option (String × QLearningNode) :=
  let st := st.ensure_state state_id
  if u < st.epsilon then
    (st.actions.get? (randIdx % st.actions.length)).map (fun a => (a, st))
  else
    (pyMaxBy ((dictGet st.q_table state_id).getD [])).map (fun p => (p.1, st))

/-- The three externally observable steps taken at the end of
`QLearningNode.update`, used to record the order in which the method performs
them. -/
inductive UpdateStep
| writeBack
| persistTable
| decayEpsilon
deriving DecidableEq

/-- Models `QLearningNode.update`. The returned trace records the order of
the three closing steps exactly as they appear in the method body (lines
171-177 of `qlearning.py`): write the new estimate back, save the whole table
(`_save`), then decay epsilon. `none` models the `ValueError` raised when the
next state's value dict is empty. -/
def QLearningNode.update (st : QLearningNode) (state_id action_id : String)
    (reward : ℚ) (next_state_id : Option String) :
    Option (QLearningNode × List UpdateStep) :=
  let st1 := st.ensure_state state_id
  let current : ℚ :=
    ((dictGet ((dictGet st1.q_table state_id).getD []) action_id)).getD 0
  let staged : Option (ℚ × QLearningNode) :=
    match next_state_id with
    | none => some (reward, st1)
    | some t =>
        let st2 := st1.ensure_state t
        (pyListMax (((dictGet st2.q_table t).getD []).map Prod.snd)).map
          (fun next_max => (reward + st1.gamma * next_max, st2))
  staged.map (fun p =>
    let new_value := current + st1.alpha * (p.1 - current)
    let inner := dictInsert ((dictGet p.2.q_table state_id).getD []) action_id new_value
    let st3 := { p.2 with q_table := dictInsert p.2.q_table state_id inner }
    let st4 := { st3 with storage := st3.q_table }
    let decayed := max st4.min_epsilon (st4.epsilon * st4.epsilon_decay)
    let st5 := { st4 with epsilon := decayed }
    (st5, [UpdateStep.writeBack, UpdateStep.persistTable, UpdateStep.decayEpsilon]))

/-- Lookup of a single estimate `q_table[s][a]`, `none` when absent. -/
def qget (q : List (String × List (String × ℚ))) (s a : String) : Option ℚ :=
  dictGet ((dictGet q s).getD []) a

/-- The `current` read by `QLearningNode.update` (line 159 of
`qlearning.py`): the stored estimate for `(s, a)` after lazily initializing
`s`, defaulting to `0.0` when the action is absent. -/
def currentEstimate (st : QLearningNode) (s a : String) : ℚ :=
  (qget (st.ensure_state s).q_table s a).getD 0

/-- The value list `table[t].values()` read by `QLearningNode.update` when a
next state `t` is given, after lazily initializing first `s` and then `t`. -/
def nextValues (st : QLearningNode) (s t : String) : List ℚ :=
  ((dictGet ((st.ensure_state s).ensure_state t).q_table t).getD []).map Prod.snd

/-- Models `PersonaDecisionGraph.__init__`: the orchestrator owns the
learner. -/
structure PersonaDecisionGraph where
  ql : QLearningNode
deriving DecidableEq

/-- Models `PersonaDecisionGraph._guess_task` of `graph.py`. -/
def guess_task (i : InputState) : Option String :=
  let text := pyLower i.perception_input.user_text
  if strIn "凤凰" text ∨ strIn "phoenix" text then some "凤凰项目草案"
  else if strIn "报告" text then some "工作报告"
  else if strIn "项目" text then some "项目任务"
  else none

/-- Models `PersonaDecisionGraph._heuristic_standard_assistant` of
`graph.py` (the only rule table that can return no match). -/
def heuristic_standard_assistant (i : InputState) : Option String :=
  let p := i.perception_input
  let flags := p.context_flags
  if "deep_work_mode" ∈ flags ∨ ("important_task" ∈ flags ∧ "quiet_space" ∈ flags) then
    some A_DEEP_WORK_MODE
  else if "interruption_high" ∈ flags ∨ "noise_distraction" ∈ flags then
    some A_DISTRACTION_SHIELD
  else if "sitting_over_2h" ∈ flags ∨ p.speech_emotion = some SpeechEmotion.fatigue then
    some A_MOVEMENT_REMINDER
  else if "progress_review" ∈ flags ∨ "goal_review" ∈ flags then
    some A_GOAL_PROGRESS
  else if p.speech_emotion = some SpeechEmotion.calm ∧ "task_switching" ∉ flags then
    some A_FOCUS_FLOW
  else if "deadline_near" ∈ flags then
    some A_SET_REMINDER
  else none

/-- Models `PersonaDecisionGraph._heuristic_cute_cat` of `graph.py` (ends in
an unconditional `A_SET_REMINDER` default). -/
def heuristic_cute_cat (i : InputState) : Option String :=
  let p := i.perception_input
  let flags := p.context_flags
  if (p.speech_emotion = some SpeechEmotion.stress ∨
      p.speech_emotion = some SpeechEmotion.sad) ∨ "emotional_distress" ∈ flags then
    some A_EMOTIONAL_SUPPORT
  else if p.speech_emotion = some SpeechEmotion.happy ∨ "achievement_unlocked" ∈ flags then
    some A_CELEBRATION
  else if p.speech_emotion = some SpeechEmotion.fatigue ∨ "sitting_over_2h" ∈ flags then
    if "eye_strain" ∈ flags then some A_BREATHING_GUIDE else some A_MOVEMENT_REMINDER
  else if p.speech_emotion = some SpeechEmotion.calm then
    some A_GENTLE_PRESENCE
  else some A_SET_REMINDER

/-- Models `PersonaDecisionGraph._heuristic_cold_boss` of `graph.py` (ends in
an unconditional `A_DEEP_WORK_MODE` default). -/
def heuristic_cold_boss (i : InputState) : Option String :=
  let p := i.perception_input
  let flags := p.context_flags
  if "interruption_high" ∈ flags ∨ "noise_distraction" ∈ flags then
    some A_DISTRACTION_SHIELD
  else if "environment_uncomfortable" ∈ flags then
    some A_SPACE_OPTIMIZATION
  else if "important_task" ∈ flags ∨ "deadline_near" ∈ flags then
    some A_DEEP_WORK_MODE
  else if p.speech_emotion = some SpeechEmotion.fatigue then
    some A_ENERGY_BOOST
  else if "progress_review" ∈ flags then
    some A_GOAL_PROGRESS
  else some A_DEEP_WORK_MODE

/-- Models `PersonaDecisionGraph._heuristic_warm_sister` of `graph.py` (ends
in an unconditional `A_SET_REMINDER` default). -/
def heuristic_warm_sister (i : InputState) : Option String :=
  let p := i.perception_input
  let flags := p.context_flags
  if "sitting_over_2h" ∈ flags ∨ p.speech_emotion = some SpeechEmotion.fatigue then
    some A_MOVEMENT_REMINDER
  else if (p.speech_emotion = some SpeechEmotion.stress ∨
           p.speech_emotion = some SpeechEmotion.sad) ∨ "emotional_distress" ∈ flags then
    some A_EMOTIONAL_SUPPORT
  else if "eye_strain" ∈ flags ∨ p.speech_emotion = some SpeechEmotion.stress then
    some A_BREATHING_GUIDE
  else if "environment_uncomfortable" ∈ flags then
    some A_ENVIRONMENT_ADJUST
  else if "improvement_seeking" ∈ flags then
    some A_HABIT_NUDGE
  else some A_SET_REMINDER

/-- Models `PersonaDecisionGraph._heuristic_anime_wizard` of `graph.py` (ends
in an unconditional `A_PERSONALIZED_INSIGHT` default). -/
def heuristic_anime_wizard (i : InputState) : Option String :=
  let p := i.perception_input
  let flags := p.context_flags
  if "progress_review" ∈ flags ∨ "self_reflection" ∈ flags then
    some A_GOAL_PROGRESS
  else if "improvement_seeking" ∈ flags ∨ p.speech_emotion = some SpeechEmotion.calm then
    some A_PERSONALIZED_INSIGHT
  else if "habit_formation" ∈ flags then
    some A_HABIT_NUDGE
  else if "environment_uncomfortable" ∈ flags then
    some A_AMBIENT_COMPANION
  else if strIn "凤凰" p.user_text = true ∨ strIn "phoenix" (pyLower p.user_text) = true then
    some A_SET_REMINDER
  else some A_PERSONALIZED_INSIGHT

/-- Models `PersonaDecisionGraph._heuristic_sarcastic_fighter` of `graph.py`
(ends in an unconditional `A_DEEP_WORK_MODE` default). -/
def heuristic_sarcastic_fighter (i : InputState) : Option String :=
  let p := i.perception_input
  let flags := p.context_flags
  if p.speech_emotion = some SpeechEmotion.happy ∨ "achievement_unlocked" ∈ flags then
    some A_CELEBRATION
  else if p.speech_emotion = some SpeechEmotion.fatigue then
    some A_ENERGY_BOOST
  else if "interruption_high" ∈ flags ∨ "noise_distraction" ∈ flags then
    some A_DISTRACTION_SHIELD
  else if "progress_review" ∈ flags then
    some A_GOAL_PROGRESS
  else if "important_task" ∈ flags ∨
          (p.speech_emotion = some SpeechEmotion.stress ∨
           p.speech_emotion = some SpeechEmotion.angry) then
    some A_DEEP_WORK_MODE
  else some A_DEEP_WORK_MODE

/-- Models `PersonaDecisionGraph._heuristic_action` of `graph.py`: route to
the personality-specific rule table. -/
def heuristic_action (i : InputState) : Option String :=
  match i.system_context.personality with
  | .StandardAssistant => heuristic_standard_assistant i
  | .CuteCat => heuristic_cute_cat i
  | .ColdBoss => heuristic_cold_boss i
  | .WarmSister => heuristic_warm_sister i
  | .AnimeWizard => heuristic_anime_wizard i
  | .SarcasticFighter => heuristic_sarcastic_fighter i

/-- Models `PersonaDecisionGraph.run_once`: discretize, try the heuristic rule
stage, fall back to the learner's `select_action` only on no match, template
the action and apply the persona filter. The random draws `u`/`randIdx` are
threaded to `select_action`; `none` models an exception escaping the learner
fallback. -/
def PersonaDecisionGraph.run_once (g : PersonaDecisionGraph) (i : InputState)
    (u : ℚ) (randIdx : ℕ) : Option (OutputCommand × PersonaDecisionGraph) :=
  let state_id := discretize_state i
  let chosen : Option (String × PersonaDecisionGraph) :=
    match heuristic_action i with
    | some a => some (a, g)
    | none => (g.ql.select_action state_id u randIdx).map (fun p => (p.1, { ql := p.2 }))
  chosen.map (fun p =>
    let personality := i.system_context.personality
    let output := map_action_to_output p.1 (guess_task i) personality
    (apply_persona_filter output personality, p.2))

/-- Concrete learner used to instantiate the update-rule theorem. -/
def qnode1 : QLearningNode :=
  { actions := ["x", "y"], alpha := 1, gamma := 1, epsilon := 1,
    min_epsilon := 0, epsilon_decay := 1, q_table := [], storage := [] }

/-- Concrete learner with a stored table, exploration rate zero, used to
instantiate the greedy-selection theorem. -/
def qnode2 : QLearningNode :=
  { actions := ["x", "y"], alpha := 1, gamma := 1, epsilon := 0,
    min_epsilon := 0, epsilon_decay := 1,
    q_table := [("s", [("x", 0), ("y", 1)])], storage := [] }

/-- Concrete learner used to instantiate the epsilon-decay theorem. -/
def qnode3 : QLearningNode :=
  { actions := ["x"], alpha := 1, gamma := 1, epsilon := 1,
    min_epsilon := 0, epsilon_decay := 1, q_table := [], storage := [] }

/-- Concrete learner whose table already holds the probed state key. -/
def qnode4 : QLearningNode :=
  { actions := ["x"], alpha := 1, gamma := 1, epsilon := 0,
    min_epsilon := 0, epsilon_decay := 1,
    q_table := [("s", [("x", 0)])], storage := [] }

/-- Concrete learner with an empty table (the probed state key is absent). -/
def qnode4b : QLearningNode :=
  { actions := ["x"], alpha := 1, gamma := 1, epsilon := 0,
    min_epsilon := 0, epsilon_decay := 1, q_table := [], storage := [] }

/-- Concrete learner used to exhibit the order of the update steps. -/
def qnode8 : QLearningNode :=
  { actions := ["x"], alpha := 1, gamma := 1, epsilon := 1,
    min_epsilon := 0, epsilon_decay := 1, q_table := [], storage := [] }

/-- Concrete decision graph wrapping a fresh learner. -/
def testGraph : PersonaDecisionGraph :=
  { ql := { actions := ACTIONS, alpha := 1, gamma := 1, epsilon := 0,
            min_epsilon := 0, epsilon_decay := 1, q_table := [], storage := [] } }

/-- Perception record with every optional field absent. -/
def emptyPerception : PerceptionInput :=
  { user_text := "", speech_emotion := none, text_sentiment := none,
    context_flags := [], time_of_day := none }

/-- Memory record with no facts and no episodes. -/
def emptyMemory : MemoryInput := { facts := [], episodes := [] }

/-- Concrete snapshot under the CuteCat personality. -/
def catInput : InputState :=
  { perception_input := emptyPerception, memory_input := emptyMemory,
    system_context := { personality := .CuteCat, long_term_goals := [] } }

/-- Concrete StandardAssistant snapshot matching no heuristic rule. -/
def standardQuietInput : InputState :=
  { perception_input := emptyPerception, memory_input := emptyMemory,
    system_context := { personality := .StandardAssistant, long_term_goals := [] } }

/-- Concrete StandardAssistant snapshot with stressed emotion and both the
deadline and interruption flags. -/
def stressInput : InputState :=
  { perception_input :=
      { user_text := "", speech_emotion := some .stress, text_sentiment := none,
        context_flags := ["deadline_near", "interruption_high"], time_of_day := none },
    memory_input := emptyMemory,
    system_context := { personality := .StandardAssistant, long_term_goals := [] } }

/-- Concrete output command whose action suggests a break. -/
def breakOutput : OutputCommand :=
  { execution_output := { screen_animation := none, light_effect := none },
    tts_output := { text_to_speak := none },
    action := { type := "suggest_break", parameters := noParams } }

theorem dictGet_dictInsert_self {β : Type} (d : List (String × β)) (k : String) (v : β) :
    dictGet (dictInsert d k v) k = some v := by
  induction d with
  | nil => simp [dictInsert, dictGet]
  | cons p rest ih =>
      obtain ⟨k', v'⟩ := p
      by_cases h : k' = k
      · simp [dictInsert, dictGet, h]
      · simp [dictInsert, dictGet, h, ih]

theorem update_none_some (st : QLearningNode) (s a : String) (r : ℚ) :
    ∃ st' tr, st.update s a r none = some (st', tr) :=
  ⟨_, _, rfl⟩

theorem pyMaxBy_eq_none_iff (l : List (String × ℚ)) : pyMaxBy l = none ↔ l = [] := by
  cases l with
  | nil => simp [pyMaxBy]
  | cons p rest =>
      simp only [pyMaxBy]
      cases pyMaxBy rest <;> simp

theorem pyMaxBy_spec (l : List (String × ℚ)) :
    ∀ p : String × ℚ, pyMaxBy l = some p →
      ∃ l₁ l₂, l = l₁ ++ p :: l₂ ∧ (∀ q ∈ l₁, q.2 < p.2) ∧ ∀ q ∈ l, q.2 ≤ p.2 := by
  induction l with
  | nil => intro p h; simp [pyMaxBy] at h
  | cons x rest ih =>
      intro p h
      simp only [pyMaxBy] at h
      cases hr : pyMaxBy rest with
      | none =>
          rw [hr] at h
          obtain rfl : x = p := Option.some.inj h
          obtain rfl : rest = [] := (pyMaxBy_eq_none_iff rest).mp hr
          exact ⟨[], [], by simp, by simp, by simp⟩
      | some q =>
          rw [hr] at h
          have h' : (if x.2 < q.2 then q else x) = p := Option.some.inj h
          obtain ⟨r₁, r₂, hdec, hlt, hle⟩ := ih q hr
          by_cases hxy : x.2 < q.2
          · rw [if_pos hxy] at h'
            obtain rfl : q = p := h'
            refine ⟨x :: r₁, r₂, by simp [hdec], ?_, ?_⟩
            · intro z hz
              rcases List.mem_cons.mp hz with hz | hz
              · subst hz; exact hxy
              · exact hlt z hz
            · intro z hz
              rcases List.mem_cons.mp hz with hz | hz
              · subst hz; exact le_of_lt hxy
              · exact hle z hz
          · rw [if_neg hxy] at h'
            obtain rfl : x = p := h'
            refine ⟨[], rest, by simp, by simp, ?_⟩
            intro z hz
            rcases List.mem_cons.mp hz with hz | hz
            · subst hz; exact le_refl _
            · exact (hle z hz).trans (not_lt.mp hxy)

theorem le_foldl_max (xs : List ℚ) : ∀ x : ℚ, x ≤ xs.foldl max x := by
  induction xs with
  | nil => intro x; simp
  | cons y ys ih =>
      intro x
      simp only [List.foldl_cons]
      exact le_trans (le_max_left x y) (ih (max x y))

theorem mem_le_foldl_max (xs : List ℚ) :
    ∀ x y : ℚ, y ∈ xs → y ≤ xs.foldl max x := by
  induction xs with
  | nil => intro x y h; simp at h
  | cons z zs ih =>
      intro x y hy
      simp only [List.foldl_cons]
      rcases List.mem_cons.mp hy with h | h
      · subst h; exact le_trans (le_max_right x y) (le_foldl_max zs (max x y))
      · exact ih (max x z) y h

theorem foldl_max_mem (xs : List ℚ) :
    ∀ x : ℚ, xs.foldl max x = x ∨ xs.foldl max x ∈ xs := by
  induction xs with
  | nil => intro x; left; rfl
  | cons z zs ih =>
      intro x
      simp only [List.foldl_cons]
      rcases ih (max x z) with h | h
      · rcases max_choice x z with hm | hm
        · left; rw [h, hm]
        · right; rw [h, hm]; exact List.mem_cons_self z zs
      · right; exact List.mem_cons_of_mem z h

theorem pyListMax_spec (l : List ℚ) (m : ℚ) (h : pyListMax l = some m) :
    m ∈ l ∧ ∀ x ∈ l, x ≤ m := by
  cases l with
  | nil => simp [pyListMax] at h
  | cons x xs =>
      simp only [pyListMax] at h
      obtain rfl : xs.foldl max x = m := Option.some.inj h
      constructor
      · rcases foldl_max_mem xs x with h' | h'
        · rw [h']; exact List.mem_cons_self _ _
        · exact List.mem_cons_of_mem _ h'
      · intro y hy
        rcases List.mem_cons.mp hy with h' | h'
        · subst h'; exact le_foldl_max xs y
        · exact mem_le_foldl_max xs x y h'

theorem pyListMax_ne_none (l : List ℚ) (h : l ≠ []) : ∃ m, pyListMax l = some m := by
  cases l with
  | nil => exact absurd rfl h
  | cons x xs => exact ⟨_, rfl⟩

theorem ensure_state_epsilon (st : QLearningNode) (s : String) :
    (st.ensure_state s).epsilon = st.epsilon := by
  unfold QLearningNode.ensure_state
  split <;> rfl

theorem ensure_state_actions (st : QLearningNode) (s : String) :
    (st.ensure_state s).actions = st.actions := by
  unfold QLearningNode.ensure_state
  split <;> rfl

theorem ensure_state_alpha (st : QLearningNode) (s : String) :
    (st.ensure_state s).alpha = st.alpha := by
  unfold QLearningNode.ensure_state
  split <;> rfl

theorem ensure_state_gamma (st : QLearningNode) (s : String) :
    (st.ensure_state s).gamma = st.gamma := by
  unfold QLearningNode.ensure_state
  split <;> rfl

theorem ensure_state_min_epsilon (st : QLearningNode) (s : String) :
    (st.ensure_state s).min_epsilon = st.min_epsilon := by
  unfold QLearningNode.ensure_state
  split <;> rfl

theorem ensure_state_epsilon_decay (st : QLearningNode) (s : String) :
    (st.ensure_state s).epsilon_decay = st.epsilon_decay := by
  unfold QLearningNode.ensure_state
  split <;> rfl

theorem ensure_state_of_contains (st : QLearningNode) (s : String)
    (h : (dictGet st.q_table s).isSome = true) : st.ensure_state s = st := by
  unfold QLearningNode.ensure_state dictContains
  rw [if_pos h]

theorem ensure_state_of_absent (st : QLearningNode) (s : String)
    (h : dictGet st.q_table s = none) :
    (st.ensure_state s).q_table =
      st.q_table ++ [(s, st.actions.map (fun a => (a, (0 : ℚ))))] := by
  unfold QLearningNode.ensure_state dictContains
  rw [if_neg (by simp [h])]

theorem update_some_inv (st : QLearningNode) (s a : String) (r : ℚ)
    (t? : Option String) (st' : QLearningNode) (tr : List UpdateStep)
    (h : st.update s a r t? = some (st', tr)) :
    tr = [UpdateStep.writeBack, UpdateStep.persistTable, UpdateStep.decayEpsilon] ∧
    st'.storage = st'.q_table ∧
    st'.epsilon = max st.min_epsilon (st.epsilon * st.epsilon_decay) ∧
    st'.min_epsilon = st.min_epsilon ∧
    st'.epsilon_decay = st.epsilon_decay := by
  cases t? with
  | none =>
      simp only [QLearningNode.update, Option.map_some'] at h
      rw [Option.some.injEq, Prod.mk.injEq] at h
      obtain ⟨h1, h2⟩ := h
      subst h1
      subst h2
      simp [ensure_state_epsilon, ensure_state_min_epsilon, ensure_state_epsilon_decay]
  | some t =>
      simp only [QLearningNode.update] at h
      cases hpm :
          pyListMax
            (((dictGet ((st.ensure_state s).ensure_state t).q_table t).getD []).map
              Prod.snd) with
      | none =>
          rw [hpm] at h
          simp at h
      | some m =>
          rw [hpm] at h
          simp only [Option.map_some'] at h
          rw [Option.some.injEq, Prod.mk.injEq] at h
          obtain ⟨h1, h2⟩ := h
          subst h1
          subst h2
          simp [ensure_state_epsilon, ensure_state_min_epsilon,
                ensure_state_epsilon_decay]

theorem update_qget (st : QLearningNode) (s a : String) (r : ℚ)
    (t? : Option String) (st' : QLearningNode) (tr : List UpdateStep) (target : ℚ)
    (h : st.update s a r t? = some (st', tr))
    (htarget : match t? with
               | none => target = r
               | some t => ∃ m, pyListMax (nextValues st s t) = some m ∧
                   target = r + st.gamma * m) :
    qget st'.q_table s a =
      some (currentEstimate st s a +
            st.alpha * (target - currentEstimate st s a)) := by
  cases t? with
  | none =>
      simp only [QLearningNode.update, Option.map_some'] at h
      rw [Option.some.injEq, Prod.mk.injEq] at h
      obtain ⟨h1, -⟩ := h
      subst h1
      obtain rfl : target = r := htarget
      unfold qget currentEstimate qget
      simp only [dictGet_dictInsert_self, Option.getD_some, ensure_state_alpha]
  | some t =>
      obtain ⟨m, hm, rfl⟩ := htarget
      unfold nextValues at hm
      simp only [QLearningNode.update] at h
      rw [hm] at h
      simp only [Option.map_some'] at h
      rw [Option.some.injEq, Prod.mk.injEq] at h
      obtain ⟨h1, -⟩ := h
      subst h1
      unfold qget currentEstimate qget
      simp only [dictGet_dictInsert_self, Option.getD_some, ensure_state_alpha,
                 ensure_state_gamma]

/-- C1: the learner's update sets the new estimate for `(s, a)` to
`current + α·(target − current)`, where `current` is the stored estimate for
`(s, a)` (`0.0` if absent, after lazily initializing `s`), and `target = r`
when no next state is given, else `r + γ·max` over the stored estimates of
the next state (after lazily initializing it). -/
theorem c1_update_td_rule (st : QLearningNode) (s a : String) (r : ℚ) :
    (∃ st' tr, st.update s a r none = some (st', tr) ∧
        qget st'.q_table s a =
          some (currentEstimate st s a +
                st.alpha * (r - currentEstimate st s a))) ∧
    (∀ t : String, nextValues st s t ≠ [] →
        ∃ st' tr m, pyListMax (nextValues st s t) = some m ∧
          m ∈ nextValues st s t ∧ (∀ x ∈ nextValues st s t, x ≤ m) ∧
          st.update s a r (some t) = some (st', tr) ∧
          qget st'.q_table s a =
            some (currentEstimate st s a +
                  st.alpha * ((r + st.gamma * m) - currentEstimate st s a))) := by
  constructor
  · obtain ⟨st', tr, h⟩ := update_none_some st s a r
    exact ⟨st', tr, h, update_qget st s a r none st' tr r h rfl⟩
  · intro t hne
    obtain ⟨m, hm⟩ := pyListMax_ne_none _ hne
    obtain ⟨hmem, hle⟩ := pyListMax_spec _ _ hm
    have hsucc : ∃ st' tr, st.update s a r (some t) = some (st', tr) := by
      have hm' := hm
      unfold nextValues at hm'
      simp only [QLearningNode.update]
      rw [hm']
      exact ⟨_, _, rfl⟩
    obtain ⟨st', tr, h⟩ := hsucc
    exact ⟨st', tr, m, hm, hmem, hle, h,
           update_qget st s a r (some t) st' tr _ h ⟨m, hm, rfl⟩⟩

/-- Witness for C1: the update rule instantiated at a concrete learner, with
a concrete next state whose value list is nonempty. -/
theorem c1_update_td_rule_witness :
    ∃ st' tr m, pyListMax (nextValues qnode1 "s" "s2") = some m ∧
      m ∈ nextValues qnode1 "s" "s2" ∧
      (∀ x ∈ nextValues qnode1 "s" "s2", x ≤ m) ∧
      qnode1.update "s" "x" 1 (some "s2") = some (st', tr) ∧
      qget st'.q_table "s" "x" =
        some (currentEstimate qnode1 "s" "x" +
              qnode1.alpha * ((1 + qnode1.gamma * m) - currentEstimate qnode1 "s" "x")) :=
  (c1_update_td_rule qnode1 "s" "x" 1).2 "s2" (by decide)

/-- C3: after any successful update call on a learner whose parameters obey
the documented configuration (nonnegative floor, epsilon at or above the
floor, decay factor at most one), epsilon does not increase, stays at or
above the floor, and the floor and decay parameters are unchanged — so the
property propagates across every sequence of update calls. -/
theorem c3_epsilon_decay_bounds (st : QLearningNode)
    (hmin : 0 ≤ st.min_epsilon) (hle : st.min_epsilon ≤ st.epsilon)
    (hdecay : st.epsilon_decay ≤ 1)
    (s a : String) (r : ℚ) (t? : Option String)
    (st' : QLearningNode) (tr : List UpdateStep)
    (h : st.update s a r t? = some (st', tr)) :
    st'.epsilon ≤ st.epsilon ∧ st.min_epsilon ≤ st'.epsilon ∧
    st'.min_epsilon = st.min_epsilon ∧ st'.epsilon_decay = st.epsilon_decay := by
  obtain ⟨-, -, heps, hm, hd⟩ := update_some_inv st s a r t? st' tr h
  refine ⟨?_, ?_, hm, hd⟩
  · rw [heps]
    apply max_le hle
    calc st.epsilon * st.epsilon_decay ≤ st.epsilon * 1 :=
          mul_le_mul_of_nonneg_left hdecay (hmin.trans hle)
      _ = st.epsilon := mul_one _
  · rw [heps]
    exact le_max_left _ _

/-- Witness for C3 at a concrete learner and a concrete update call. -/
theorem c3_epsilon_decay_bounds_witness :
    ∃ st' tr, qnode3.update "s" "x" 1 none = some (st', tr) ∧
      st'.epsilon ≤ qnode3.epsilon ∧ qnode3.min_epsilon ≤ st'.epsilon := by
  obtain ⟨st', tr, h⟩ := update_none_some qnode3 "s" "x" 1
  obtain ⟨h1, h2, -, -⟩ :=
    c3_epsilon_decay_bounds qnode3 (le_refl 0) (by decide) (le_refl 1)
      "s" "x" 1 none st' tr h
  exact ⟨st', tr, h, h1, h2⟩

/-- Counterexample to C4 as stated: at a concrete learner whose table does
not hold the probed state key, `select_action` changes the table (the lazy
initialization inside `_ensure_state` adds the entry). -/
theorem c4_select_counterexample :
    (qnode4b.select_action "s" 0 0).map (fun p => p.2.q_table) ≠
      some qnode4b.q_table := by
  decide

/-- C4 amended: `select_action` leaves the Value Table unchanged whenever the
probed state key is already present; when it is absent, the only change is
appending the lazily initialized entry for that key (all catalog actions at
`0.0`), so existing entries are never removed or changed. -/
theorem c4_select_frame_amended (st : QLearningNode) (s : String) (u : ℚ)
    (idx : ℕ) (a : String) (st' : QLearningNode)
    (h : st.select_action s u idx = some (a, st')) :
    ((dictGet st.q_table s).isSome = true → st'.q_table = st.q_table) ∧
    (dictGet st.q_table s = none →
      st'.q_table =
        st.q_table ++ [(s, st.actions.map (fun act => (act, (0 : ℚ))))]) := by
  have hst : st' = st.ensure_state s := by
    simp only [QLearningNode.select_action] at h
    by_cases hc : u < (st.ensure_state s).epsilon
    · rw [if_pos hc] at h
      cases hg : (st.ensure_state s).actions.get?
          (idx % (st.ensure_state s).actions.length) with
      | none => rw [hg] at h; simp at h
      | some b =>
          rw [hg] at h
          simp only [Option.map_some'] at h
          rw [Option.some.injEq, Prod.mk.injEq] at h
          exact h.2.symm
    · rw [if_neg hc] at h
      cases hg : pyMaxBy ((dictGet (st.ensure_state s).q_table s).getD []) with
      | none => rw [hg] at h; simp at h
      | some p =>
          rw [hg] at h
          simp only [Option.map_some'] at h
          rw [Option.some.injEq, Prod.mk.injEq] at h
          exact h.2.symm
  constructor
  · intro hc
    rw [hst, ensure_state_of_contains st s hc]
  · intro hc
    rw [hst]
    exact ensure_state_of_absent st s hc

/-- Witness for the amended C4 at a concrete learner whose table already
holds the probed state key. -/
theorem c4_select_frame_amended_witness :
    ((dictGet qnode4.q_table "s").isSome = true → qnode4.q_table = qnode4.q_table) ∧
    (dictGet qnode4.q_table "s" = none →
      qnode4.q_table =
        qnode4.q_table ++ [("s", qnode4.actions.map (fun act => (act, (0 : ℚ))))]) :=
  c4_select_frame_amended qnode4 "s" 0 0 "x" qnode4 (by decide)

/-- Counterexample to C8 as stated: at a concrete update call, the recorded
step order is write-back, persist, decay — not write-back, decay, persist. -/
theorem c8_order_counterexample :
    (qnode8.update "s" "x" 1 none).map Prod.snd ≠
      some [UpdateStep.writeBack, UpdateStep.decayEpsilon, UpdateStep.persistTable] := by
  decide

/-- C8 amended: every successful update call writes the new estimate back,
then persists the whole (post-write-back) table to the durable document, and
then decays epsilon via `ε = max(ε_min, ε·ε_decay)`. -/
theorem c8_update_order_amended (st : QLearningNode) (s a : String) (r : ℚ)
    (t? : Option String) (st' : QLearningNode) (tr : List UpdateStep)
    (h : st.update s a r t? = some (st', tr)) :
    tr = [UpdateStep.writeBack, UpdateStep.persistTable, UpdateStep.decayEpsilon] ∧
    st'.storage = st'.q_table ∧
    st'.epsilon = max st.min_epsilon (st.epsilon * st.epsilon_decay) := by
  obtain ⟨h1, h2, h3, -, -⟩ := update_some_inv st s a r t? st' tr h
  exact ⟨h1, h2, h3⟩

/-- Witness for the amended C8 at a concrete learner and update call. -/
theorem c8_update_order_amended_witness :
    ∃ st' tr, qnode8.update "s" "x" 1 none = some (st', tr) ∧
      tr = [UpdateStep.writeBack, UpdateStep.persistTable, UpdateStep.decayEpsilon] ∧
      st'.storage = st'.q_table := by
  obtain ⟨st', tr, h⟩ := update_none_some qnode8 "s" "x" 1
  obtain ⟨h1, h2, -⟩ := c8_update_order_amended qnode8 "s" "x" 1 none st' tr h
  exact ⟨st', tr, h, h1, h2⟩

/-- C2: with exploration rate zero, `select_action` never explores and
deterministically returns the first entry of the state's stored dict that
attains the maximal estimate; because the dict's keys are the catalog in
declaration order, that is the first-declared catalog action among those
achieving the maximum, and any two calls on identical table state return the
same action. -/
theorem c2_greedy_select_first_max (st : QLearningNode) (s : String) (u : ℚ)
    (idx : ℕ) (inner : List (String × ℚ))
    (heps : st.epsilon = 0) (hu : 0 ≤ u)
    (hinner : inner = (dictGet (st.ensure_state s).q_table s).getD [])
    (hkeys : inner.map Prod.fst = st.actions)
    (hne : inner ≠ []) :
    ∃ a v l₁ l₂ st',
      st.select_action s u idx = some (a, st') ∧
      inner = l₁ ++ (a, v) :: l₂ ∧
      st.actions = l₁.map Prod.fst ++ a :: l₂.map Prod.fst ∧
      (∀ q ∈ l₁, q.2 < v) ∧ (∀ q ∈ inner, q.2 ≤ v) ∧
      (∀ u' : ℚ, ∀ idx' : ℕ, 0 ≤ u' →
        (st.select_action s u' idx').map Prod.fst = some a) := by
  have hcond : ∀ w : ℚ, 0 ≤ w → ¬ w < (st.ensure_state s).epsilon := by
    intro w hw
    rw [ensure_state_epsilon, heps]
    exact not_lt.mpr hw
  obtain ⟨p, hp⟩ : ∃ p, pyMaxBy inner = some p := by
    cases hmb : pyMaxBy inner with
    | none => exact absurd ((pyMaxBy_eq_none_iff inner).mp hmb) hne
    | some p => exact ⟨p, rfl⟩
  obtain ⟨l₁, l₂, hdec, hlt, hle⟩ := pyMaxBy_spec inner p hp
  have hsel : ∀ w : ℚ, ∀ j : ℕ, 0 ≤ w →
      st.select_action s w j = some (p.1, st.ensure_state s) := by
    intro w j hw
    simp only [QLearningNode.select_action]
    rw [if_neg (hcond w hw), ← hinner, hp]
    rfl
  refine ⟨p.1, p.2, l₁, l₂, st.ensure_state s, hsel u idx hu, hdec, ?_, hlt, hle, ?_⟩
  · rw [← hkeys, hdec]
    simp
  · intro u' idx' hu'
    rw [hsel u' idx' hu']
    rfl

/-- Witness for C2 at a concrete learner with exploration rate zero and a
stored table in which the second catalog action holds the unique maximum. -/
theorem c2_greedy_select_first_max_witness :
    ∃ a v l₁ l₂ st',
      qnode2.select_action "s" 0 0 = some (a, st') ∧
      ([("x", (0 : ℚ)), ("y", 1)] : List (String × ℚ)) = l₁ ++ (a, v) :: l₂ ∧
      qnode2.actions = l₁.map Prod.fst ++ a :: l₂.map Prod.fst ∧
      (∀ q ∈ l₁, q.2 < v) ∧
      (∀ q ∈ ([("x", (0 : ℚ)), ("y", 1)] : List (String × ℚ)), q.2 ≤ v) ∧
      (∀ u' : ℚ, ∀ idx' : ℕ, 0 ≤ u' →
        (qnode2.select_action "s" u' idx').map Prod.fst = some a) :=
  c2_greedy_select_first_max qnode2 "s" 0 0 [("x", 0), ("y", 1)]
    rfl (le_refl 0) rfl rfl (by decide)

theorem strData_append (s t : String) : (s ++ t).data = s.data ++ t.data := by
  cases s
  cases t
  rfl

theorem subOf_nil_pat (l : List Char) : subOf [] l = true := by
  induction l with
  | nil => rfl
  | cons c cs ih =>
      have hp : List.isPrefixOf ([] : List Char) (c :: cs) = true := rfl
      simp [subOf, hp, ih]

theorem isPrefixOf_append_ext (pat l m : List Char) (h : pat.isPrefixOf l = true) :
    pat.isPrefixOf (l ++ m) = true := by
  rw [List.isPrefixOf_iff_prefix] at h ⊢
  exact h.trans (l.prefix_append m)

theorem subOf_append_right (pat l₁ l₂ : List Char) (h : subOf pat l₂ = true) :
    subOf pat (l₁ ++ l₂) = true := by
  induction l₁ with
  | nil => simpa using h
  | cons c cs ih =>
      rw [List.cons_append]
      simp only [subOf, Bool.or_eq_true]
      exact Or.inr ih

theorem subOf_append_left (pat l₁ l₂ : List Char) (h : subOf pat l₁ = true) :
    subOf pat (l₁ ++ l₂) = true := by
  induction l₁ with
  | nil =>
      have hp : pat = [] := by
        cases pat with
        | nil => rfl
        | cons x xs => simp [subOf, List.isEmpty] at h
      subst hp
      exact subOf_nil_pat _
  | cons c cs ih =>
      rw [List.cons_append]
      simp only [subOf, Bool.or_eq_true] at h ⊢
      rcases h with h | h
      · exact Or.inl (isPrefixOf_append_ext pat (c :: cs) l₂ h)
      · exact Or.inr (ih h)

theorem strIn_append_right (needle s t : String) (h : strIn needle t = true) :
    strIn needle (s ++ t) = true := by
  unfold strIn at h ⊢
  rw [strData_append]
  exact subOf_append_right _ _ _ h

theorem strIn_append_left (needle s t : String) (h : strIn needle s = true) :
    strIn needle (s ++ t) = true := by
  unfold strIn at h ⊢
  rw [strData_append]
  exact subOf_append_left _ _ _ h

theorem append_ne_empty_of_right (s t : String) (h : t.data ≠ []) : s ++ t ≠ "" := by
  intro he
  have hd := congrArg String.data he
  rw [strData_append] at hd
  exact h (List.append_eq_nil.mp hd).2

theorem filter_cute_cat_invariant (o : OutputCommand) :
    ((filter_cute_cat o).tts_output.text_to_speak.getD "" = "" ∨
      (cuteElements.any fun e =>
        strIn e ((filter_cute_cat o).tts_output.text_to_speak.getD "")) = true) ∧
    (filter_cute_cat o).execution_output.screen_animation ≠ some "focused" := by
  simp only [filter_cute_cat]
  split_ifs
  all_goals simp_all
  · refine Or.inr ⟨"~", by simp [cuteElements], ?_⟩
    exact strIn_append_right "~" _ " ~" (by decide)
  · refine Or.inr ⟨"~", by simp [cuteElements], ?_⟩
    exact strIn_append_right "~" _ " ~" (by decide)

theorem filter_cute_cat_fixed (o : OutputCommand)
    (htext : o.tts_output.text_to_speak.getD "" = "" ∨
      (cuteElements.any fun e =>
        strIn e (o.tts_output.text_to_speak.getD "")) = true)
    (hanim : o.execution_output.screen_animation ≠ some "focused") :
    filter_cute_cat o = o := by
  simp only [filter_cute_cat]
  split_ifs <;> simp_all

theorem filter_warm_sister_invariant (o : OutputCommand) :
    ((filter_warm_sister o).tts_output.text_to_speak.getD "" = "" ∨
      (understandingWords.any fun w =>
        strIn w ((filter_warm_sister o).tts_output.text_to_speak.getD "")) = true) ∧
    (filter_warm_sister o).execution_output.screen_animation ≠ some "focused" := by
  simp only [filter_warm_sister]
  split_ifs
  all_goals simp_all
  · refine Or.inr ⟨"理解", by simp [understandingWords], ?_⟩
    exact strIn_append_left "理解" "我理解。" _ (by decide)
  · refine Or.inr ⟨"理解", by simp [understandingWords], ?_⟩
    exact strIn_append_left "理解" "我理解。" _ (by decide)

theorem filter_warm_sister_fixed (o : OutputCommand)
    (htext : o.tts_output.text_to_speak.getD "" = "" ∨
      (understandingWords.any fun w =>
        strIn w (o.tts_output.text_to_speak.getD "")) = true)
    (hanim : o.execution_output.screen_animation ≠ some "focused") :
    filter_warm_sister o = o := by
  simp only [filter_warm_sister]
  split_ifs <;> try simp_all
  cases hot : o.tts_output.text_to_speak with
  | none => simp_all
  | some t =>
      simp only [Option.getD_some]
      rw [← hot]

/-- C10: the CuteCat and WarmSister persona filters are idempotent: a second
application finds the cute marker (the appended `" ~"`) or the understanding
keyword (the prepended phrase) already present and sees a screen animation
that is no longer `"focused"`, so it changes nothing. -/
theorem c10_filters_idempotent (o : OutputCommand) :
    apply_persona_filter (apply_persona_filter o .CuteCat) .CuteCat =
      apply_persona_filter o .CuteCat ∧
    apply_persona_filter (apply_persona_filter o .WarmSister) .WarmSister =
      apply_persona_filter o .WarmSister := by
  constructor
  · show filter_cute_cat (filter_cute_cat o) = filter_cute_cat o
    exact filter_cute_cat_fixed _ (filter_cute_cat_invariant o).1
      (filter_cute_cat_invariant o).2
  · show filter_warm_sister (filter_warm_sister o) = filter_warm_sister o
    exact filter_warm_sister_fixed _ (filter_warm_sister_invariant o).1
      (filter_warm_sister_invariant o).2

/-- C7: the ColdBoss filter turns any `suggest_break` output into
`enter_focus_mode` with duration exactly 45, and the SarcasticFighter filter
turns it into `enter_focus_mode` with duration exactly 90. -/
theorem c7_break_coercion_durations (o : OutputCommand)
    (h : o.action.type = "suggest_break") :
    (apply_persona_filter o .ColdBoss).action.type = "enter_focus_mode" ∧
    (apply_persona_filter o .ColdBoss).action.parameters.duration = some 45 ∧
    (apply_persona_filter o .SarcasticFighter).action.type = "enter_focus_mode" ∧
    (apply_persona_filter o .SarcasticFighter).action.parameters.duration = some 90 := by
  refine ⟨?_, ?_, ?_, ?_⟩ <;>
    simp only [apply_persona_filter, filter_cold_boss, filter_sarcastic_fighter] <;>
    split_ifs <;> simp_all

/-- Witness for C7 at a concrete `suggest_break` output command. -/
theorem c7_break_coercion_durations_witness :
    (apply_persona_filter breakOutput .ColdBoss).action.type = "enter_focus_mode" ∧
    (apply_persona_filter breakOutput .ColdBoss).action.parameters.duration = some 45 ∧
    (apply_persona_filter breakOutput .SarcasticFighter).action.type = "enter_focus_mode" ∧
    (apply_persona_filter breakOutput .SarcasticFighter).action.parameters.duration =
      some 90 :=
  c7_break_coercion_durations breakOutput rfl

theorem work_rhythm_no_bar (p : PerceptionInput) (flags : List String) :
    '|' ∉ (assess_work_rhythm p flags).data := by
  simp only [assess_work_rhythm]
  split_ifs <;> decide

theorem health_status_no_bar (p : PerceptionInput) (flags : List String) :
    '|' ∉ (assess_health_status p flags).data := by
  simp only [assess_health_status]
  split_ifs <;> decide

theorem emotional_state_no_bar (p : PerceptionInput) (m : MemoryInput) :
    '|' ∉ (assess_emotional_state p m).data := by
  simp only [assess_emotional_state]
  split_ifs <;> decide

theorem personal_context_no_bar (p : PerceptionInput) (m : MemoryInput)
    (flags : List String) : '|' ∉ (assess_personal_context p m flags).data := by
  simp only [assess_personal_context]
  split_ifs <;> decide

theorem environmental_context_no_bar (p : PerceptionInput) (flags : List String) :
    '|' ∉ (assess_environmental_context p flags).data := by
  cases ht : p.time_of_day with
  | none =>
      simp only [assess_environmental_context, safeTod, ht]
      split_ifs <;> decide
  | some t =>
      cases t <;>
        · simp only [assess_environmental_context, safeTod, ht, TimeOfDay.toStr]
          split_ifs <;> decide

theorem no_bar_append (pre x : String) (hpre : '|' ∉ pre.data)
    (hx : '|' ∉ x.data) : '|' ∉ (pre ++ x).data := by
  rw [strData_append, List.mem_append]
  exact not_or.mpr ⟨hpre, hx⟩

/-- C5: for every Context Snapshot, `discretize_state` — a total function of
its input, hence pure, deterministic and never raising, with the absent
optional fields already defaulted in the input model — returns the five
dimension segments joined by `"|"`, in the fixed order RHYTHM, HEALTH,
EMOTION, GOAL, ENV, where each segment carries its dimension tag and contains
no `"|"` of its own (so the key consists of exactly these 5 segments). -/
theorem c5_state_key_shape (i : InputState) :
    ∃ s1 s2 s3 s4 s5 : String,
      discretize_state i =
        String.intercalate "|"
          [ "RHYTHM_" ++ s1, "HEALTH_" ++ s2, "EMOTION_" ++ s3,
            "GOAL_" ++ s4, "ENV_" ++ s5 ] ∧
      ∀ seg ∈ [ "RHYTHM_" ++ s1, "HEALTH_" ++ s2, "EMOTION_" ++ s3,
                "GOAL_" ++ s4, "ENV_" ++ s5 ], '|' ∉ seg.data := by
  refine ⟨assess_work_rhythm i.perception_input i.perception_input.context_flags,
    assess_health_status i.perception_input i.perception_input.context_flags,
    assess_emotional_state i.perception_input i.memory_input,
    assess_personal_context i.perception_input i.memory_input
      i.perception_input.context_flags,
    assess_environmental_context i.perception_input i.perception_input.context_flags,
    rfl, ?_⟩
  intro seg hseg
  simp only [List.mem_cons, List.not_mem_nil, or_false] at hseg
  rcases hseg with h | h | h | h | h <;> subst h
  · exact no_bar_append _ _ (by decide) (work_rhythm_no_bar _ _)
  · exact no_bar_append _ _ (by decide) (health_status_no_bar _ _)
  · exact no_bar_append _ _ (by decide) (emotional_state_no_bar _ _)
  · exact no_bar_append _ _ (by decide) (personal_context_no_bar _ _ _)
  · exact no_bar_append _ _ (by decide) (environmental_context_no_bar _ _)

theorem run_once_heuristic_some (g : PersonaDecisionGraph) (i : InputState)
    (u : ℚ) (idx : ℕ) (a : String) (h : heuristic_action i = some a) :
    PersonaDecisionGraph.run_once g i u idx =
      some (apply_persona_filter
              (map_action_to_output a (guess_task i) i.system_context.personality)
              i.system_context.personality, g) := by
  simp only [PersonaDecisionGraph.run_once, h, Option.map_some']

theorem filter_standard_assistant_action (o : OutputCommand) :
    (filter_standard_assistant o).action = o.action := by
  simp only [filter_standard_assistant]
  split_ifs <;> rfl

/-- C6: for every snapshot with stressed emotion, flag set
`{deadline_near, interruption_high}` and the StandardAssistant personality,
the rule engine resolves through the interruption condition (which precedes
the deadline condition, so the distraction shield wins although the deadline
flag is set), `run_once` returns a `distraction_protection` action, and the
learner — including its Value Table — is left exactly as it was. -/
theorem c6_interruption_rule_bypasses_learner (g : PersonaDecisionGraph)
    (i : InputState) (u : ℚ) (idx : ℕ)
    (hpers : i.system_context.personality = Personality.StandardAssistant)
    (_hemo : i.perception_input.speech_emotion = some SpeechEmotion.stress)
    (hflags : ∀ f : String, f ∈ i.perception_input.context_flags ↔
      (f = "deadline_near" ∨ f = "interruption_high")) :
    heuristic_action i = some A_DISTRACTION_SHIELD ∧
    ∃ out, PersonaDecisionGraph.run_once g i u idx = some (out, g) ∧
      out.action.type = "distraction_protection" := by
  have hint : "interruption_high" ∈ i.perception_input.context_flags :=
    (hflags _).mpr (Or.inr rfl)
  have hndeep : ¬("deep_work_mode" ∈ i.perception_input.context_flags ∨
      ("important_task" ∈ i.perception_input.context_flags ∧
       "quiet_space" ∈ i.perception_input.context_flags)) := by
    rintro (h | ⟨h, -⟩) <;> exact absurd ((hflags _).mp h) (by decide)
  have hheur : heuristic_action i = some A_DISTRACTION_SHIELD := by
    simp only [heuristic_action, hpers]
    simp only [heuristic_standard_assistant]
    rw [if_neg hndeep, if_pos (Or.inl hint)]
  refine ⟨hheur, ?_⟩
  rw [run_once_heuristic_some g i u idx _ hheur]
  refine ⟨_, rfl, ?_⟩
  rw [hpers]
  have hmap : (map_action_to_output A_DISTRACTION_SHIELD (guess_task i)
      Personality.StandardAssistant).action =
      { type := "distraction_protection", parameters := noParams } := rfl
  show (filter_standard_assistant _).action.type = _
  rw [filter_standard_assistant_action, hmap]

/-- Witness for C6 at a concrete graph and a concrete stressed snapshot with
exactly the deadline and interruption flags. -/
theorem c6_interruption_rule_bypasses_learner_witness :
    heuristic_action stressInput = some A_DISTRACTION_SHIELD ∧
    ∃ out, PersonaDecisionGraph.run_once testGraph stressInput 0 0 =
        some (out, testGraph) ∧
      out.action.type = "distraction_protection" :=
  c6_interruption_rule_bypasses_learner testGraph stressInput 0 0 rfl rfl
    (by intro f; simp [stressInput])

/-- C9: for every snapshot whose personality is not StandardAssistant, the
heuristic rule stage returns some action (each of the five other rule tables
ends in an unconditional default), so `run_once` never consults the learner
and returns with the graph state unchanged; and there exists a
StandardAssistant snapshot on which the rule stage returns no match. -/
theorem c9_nonstandard_rules_always_match :
    (∀ i : InputState,
       i.system_context.personality ≠ Personality.StandardAssistant →
       (heuristic_action i).isSome = true ∧
       ∀ (g : PersonaDecisionGraph) (u : ℚ) (idx : ℕ),
         ∃ out, PersonaDecisionGraph.run_once g i u idx = some (out, g)) ∧
    (∃ i : InputState,
       i.system_context.personality = Personality.StandardAssistant ∧
       heuristic_action i = none) := by
  constructor
  · intro i hne
    have hsome : (heuristic_action i).isSome = true := by
      simp only [heuristic_action]
      cases hp : i.system_context.personality with
      | StandardAssistant => exact absurd hp hne
      | CuteCat =>
          simp only [heuristic_cute_cat]
          split_ifs <;> rfl
      | ColdBoss =>
          simp only [heuristic_cold_boss]
          split_ifs <;> rfl
      | WarmSister =>
          simp only [heuristic_warm_sister]
          split_ifs <;> rfl
      | AnimeWizard =>
          simp only [heuristic_anime_wizard]
          split_ifs <;> rfl
      | SarcasticFighter =>
          simp only [heuristic_sarcastic_fighter]
          split_ifs <;> rfl
    refine ⟨hsome, ?_⟩
    intro g u idx
    obtain ⟨a, ha⟩ := Option.isSome_iff_exists.mp hsome
    exact ⟨_, run_once_heuristic_some g i u idx a ha⟩
  · exact ⟨standardQuietInput, rfl, by decide⟩

/-- Witness for C9 at a concrete CuteCat snapshot and a concrete graph. -/
theorem c9_nonstandard_rules_always_match_witness :
    (heuristic_action catInput).isSome = true ∧
    ∃ out, PersonaDecisionGraph.run_once testGraph catInput 0 0 =
      some (out, testGraph) := by
  obtain ⟨h1, h2⟩ := c9_nonstandard_rules_always_match.1 catInput (by decide)
  exact ⟨h1, h2 testGraph 0 0⟩

end EMate
